import Mathlib

/-
Verification development for the Agentic-SQL repository (backend/llm_client.py
and backend/sql_agent.py).

Modelling conventions:
* Every LLM/network call is an external suspension point; its outcome is an
  oracle value supplied to the step being modelled (`Except LLMErr String`,
  tool-call lists, or an evaluation-parse outcome).  The orchestration logic is
  translated from the Python source as total functions over these oracles.
* Python `Optional[str]` is `Option String`; Python truthiness of such values
  (`if final_sql:` treats both `None` and `""` as false) is `pyTruthy`.
* Floating-point relevance/accuracy scores are modelled as `ℚ`; the decimal
  literals the code compares against (0.8, 0.9, ...) are exactly representable
  so the comparisons agree with the source for all score literals the
  score-extraction regex can produce.
* The LangGraph runtime is modelled as threading a single state record through
  the graph: each node maps a state to a state, each conditional edge picks the
  next node, and the assignments the source performs on the state dict —
  including those inside the conditional edge `should_regenerate_sql` — are
  modelled as record updates that persist, which is the behaviour the source
  code is written against.
* Observability-only fields that no control logic nor any claim reads
  (`tool_calls_made`, `messages`) and the static table-catalog metadata beyond
  table names (spec: out-of-scope pure data) are not modelled.
* Prompt strings sent to the model are opaque configuration (spec §1) and are
  not modelled; diagnostic strings that land in the state are modelled, except
  that the numeric score interpolated into `planner_reasoning` is elided.
-/

/-! ### Small Python-semantics helpers -/

/-- Python's `str.strip` whitespace set (the ASCII whitespace characters;
model responses are ASCII). -/
def pyIsSpace (c : Char) : Bool :=
  c == ' ' || c == '\t' || c == '\n' || c == '\r' || c == '\x0b' || c == '\x0c'

/-- Python `str.strip` over a character list. -/
def trimChars (l : List Char) : List Char :=
  ((l.dropWhile pyIsSpace).reverse.dropWhile pyIsSpace).reverse

/-- Python `str.strip` on a string. -/
def pyStrip (s : String) : String := String.mk (trimChars s.toList)

/-- Python `str.upper` (ASCII). -/
def upperChars (l : List Char) : List Char := l.map Char.toUpper

/-- Python truthiness of an `Optional[str]`: `None` and `""` are falsy. -/
def pyTruthy : Option String → Bool
  | none => false
  | some s => !s.toList.isEmpty

/-- Does `l` start with the pattern `p` (character-wise)? -/
def startsWithList : List Char → List Char → Bool
  | _, [] => true
  | [], _ :: _ => false
  | a :: as, b :: bs => a == b && startsWithList as bs

/-- Does the pattern `p` occur as a contiguous run anywhere in `l`?
Models Python `p in s` for strings. -/
def occursIn (p : List Char) : List Char → Bool
  | [] => startsWithList [] p
  | c :: cs => startsWithList (c :: cs) p || occursIn p cs

/-! ### llm_client.py -/

/-- The errors `LLMClient` methods let escape to the caller:
`bothUnavailable` models the
`ValueError("Both primary and fallback LLM models failed or are not configured.")`
raised when no backend can be (or could be) used, and `secondary` models the
bare `raise` that re-raises the fallback backend's own exception. -/
inductive LLMErr where
  | bothUnavailable
  | secondary (cause : String)
  deriving Repr, DecidableEq

/-- String form of an escaped client error (what `str(e)` yields in the
orchestrator's exception handlers). -/
def errStr : LLMErr → String
  | .bothUnavailable => "Both primary and fallback LLM models failed or are not configured."
  | .secondary c => c

/-- Which backend a client method actually invoked, in order. -/
inductive BackendCall where
  | primary
  | secondary
  deriving Repr, DecidableEq

/-- Outcome of one network round-trip of a plain-completion backend call. -/
inductive TextOutcome where
  | ok (text : String)
  | fail (cause : String)
  deriving Repr, DecidableEq

/-- The client's fixed configuration: which credentials are present
(`GROQ_API_KEY` for the primary, `MISTRAL_API_KEY` for the fallback). -/
structure LLMConfig where
  primaryConfigured : Bool
  mistralConfigured : Bool
  deriving Repr, DecidableEq

/-- Model of `LLMClient.generate`.  Returns the result together with the trace of
backends actually attempted.  Translated from llm_client.py lines 46-88:
try primary if configured; on failure fall through to Mistral if configured;
a Mistral failure is re-raised as-is; with no usable backend the final
`ValueError` is raised. -/
def generate (cfg : LLMConfig) (primary fallback : TextOutcome) :
    Except LLMErr String × List BackendCall :=
  if cfg.primaryConfigured then
    match primary with
    | .ok t => (.ok t, [.primary])
    | .fail _ =>
      if cfg.mistralConfigured then
        match fallback with
        | .ok t => (.ok t, [.primary, .secondary])
        | .fail c => (.error (.secondary c), [.primary, .secondary])
      else (.error .bothUnavailable, [.primary])
  else
    if cfg.mistralConfigured then
      match fallback with
      | .ok t => (.ok t, [.secondary])
      | .fail c => (.error (.secondary c), [.secondary])
    else (.error .bothUnavailable, [])

/-- One structured tool invocation in a model response. -/
structure ToolCall where
  id : String
  name : String
  arguments : String
  deriving Repr, DecidableEq

/-- The uniform result shape of `generate_with_tools`:
`{"content": ..., "tool_calls": [...]}`. -/
structure ToolMessage where
  content : Option String
  tool_calls : List ToolCall
  deriving Repr, DecidableEq

/-- Outcome of one backend call of the tool-augmented variant. -/
inductive ToolOutcome where
  | ok (m : ToolMessage)
  | fail (cause : String)
  deriving Repr, DecidableEq

/-- Model of `LLMClient.generate_with_tools` (llm_client.py lines 90-175); the same
failover skeleton as `generate`, returning the uniform message shape. -/
def generate_with_tools (cfg : LLMConfig) (primary fallback : ToolOutcome) :
    Except LLMErr ToolMessage × List BackendCall :=
  if cfg.primaryConfigured then
    match primary with
    | .ok m => (.ok m, [.primary])
    | .fail _ =>
      if cfg.mistralConfigured then
        match fallback with
        | .ok m => (.ok m, [.primary, .secondary])
        | .fail c => (.error (.secondary c), [.primary, .secondary])
      else (.error .bothUnavailable, [.primary])
  else
    if cfg.mistralConfigured then
      match fallback with
      | .ok m => (.ok m, [.secondary])
      | .fail c => (.error (.secondary c), [.secondary])
    else (.error .bothUnavailable, [])

/-- The result shape of `LLMClient.chat`: content, tool calls and role. -/
structure ChatMessage where
  content : Option String
  tool_calls : List ToolCall
  role : String
  deriving Repr, DecidableEq

/-- Outcome of one backend call of the chat variant. -/
inductive ChatOutcome where
  | ok (m : ChatMessage)
  | fail (cause : String)
  deriving Repr, DecidableEq

/-- Model of `LLMClient.chat` (llm_client.py lines 177-252); same failover skeleton. -/
def chat (cfg : LLMConfig) (primary fallback : ChatOutcome) :
    Except LLMErr ChatMessage × List BackendCall :=
  if cfg.primaryConfigured then
    match primary with
    | .ok m => (.ok m, [.primary])
    | .fail _ =>
      if cfg.mistralConfigured then
        match fallback with
        | .ok m => (.ok m, [.primary, .secondary])
        | .fail c => (.error (.secondary c), [.primary, .secondary])
      else (.error .bothUnavailable, [.primary])
  else
    if cfg.mistralConfigured then
      match fallback with
      | .ok m => (.ok m, [.secondary])
      | .fail c => (.error (.secondary c), [.secondary])
    else (.error .bothUnavailable, [])

/-! ### sql_agent.py — static data and utility functions -/

/-- One routing category: a name and its table set.  Column-level catalog
metadata is out-of-scope pure data (spec §1); the table names suffice to make
`selected_tables` concrete. -/
structure CategoryInfo where
  name : String
  tables : List String
  deriving Repr, DecidableEq

def CATEGORY_1_TABLES : List String :=
  ["customers", "customer_addresses", "orders", "order_items", "payments"]

def CATEGORY_2_TABLES : List String :=
  ["products", "product_variants", "inventory", "categories", "suppliers"]

def CATEGORY_3_TABLES : List String :=
  ["warehouses", "shipments", "product_reviews", "promotions", "sales_analytics"]

/-- The `CATEGORY_MAP`: category identifiers 0, 1, 2 in order. -/
def CATEGORY_MAP : List CategoryInfo :=
  [⟨"Customer & Sales", CATEGORY_1_TABLES⟩,
   ⟨"Inventory & Products", CATEGORY_2_TABLES⟩,
   ⟨"Operations & Analytics", CATEGORY_3_TABLES⟩]

/-- The `tool_name_to_index` mapping in `planner_node`. -/
def toolNameToIndex (n : String) : Option Nat :=
  if n = "get_customer_sales_tables" then some 0
  else if n = "get_inventory_products_tables" then some 1
  else if n = "get_operations_analytics_tables" then some 2
  else none

/-- One fold step of the tool-order extraction loop: known tool names are
mapped to indices and appended unless already present. -/
def dedupStep (acc : List Nat) (n : String) : List Nat :=
  match toolNameToIndex n with
  | some i => if i ∈ acc then acc else acc ++ [i]
  | none => acc

/-- The de-duplicated, first-occurrence-ordered category indices extracted from
the returned tool invocations (`planner_node` lines 457-479). -/
def dedupOrder (names : List String) : List Nat :=
  names.foldl dedupStep []

/-- Python `"NO" in response.strip().upper()` — the negativity test of the
out-of-scope classification. -/
def containsNO (s : String) : Bool :=
  occursIn ['N', 'O'] (upperChars (trimChars s.toList))

/-- Python `str.split("\n")` over a character list (always at least one
piece). -/
def splitOnNl : List Char → List (List Char)
  | [] => [[]]
  | c :: rest =>
    if c == '\n' then [] :: splitOnNl rest
    else
      match splitOnNl rest with
      | [] => [[c]]
      | h :: t => (c :: h) :: t

/-- Python `"\n".join` over character lists. -/
def joinNl : List (List Char) → List Char
  | [] => []
  | [l] => l
  | l :: ls => l ++ '\n' :: joinNl ls

/-- Markdown-fence stripping inside `validate_sql_syntax`: when the text starts
with a fence, drop the first and last lines (when more than two), then a
leading `sql` tag. -/
def dropFenceChars (sql : List Char) : List Char :=
  if startsWithList sql ['`', '`', '`'] then
    let lines := splitOnNl sql
    let sql := if lines.length > 2 then joinNl ((lines.drop 1).dropLast) else sql
    if startsWithList sql ['s', 'q', 'l'] then trimChars (sql.drop 3) else sql
  else sql

/-- Translation of the syntax validator (sql_agent.py lines 372-401), in the environment
without the optional `sqlparse` dependency: the documented conservative check
that the (case-insensitive, trimmed) text begins with SELECT or WITH.  Empty
or whitespace-only input is invalid. -/
def validate_sql_syntax (sql : String) : Bool :=
  if (trimChars sql.toList).isEmpty then false
  else
    let l := dropFenceChars (trimChars sql.toList)
    let u := trimChars (upperChars l)
    startsWithList u ['S', 'E', 'L', 'E', 'C', 'T'] || startsWithList u ['W', 'I', 'T', 'H']

/-- Split a character list at the first occurrence of a triple backtick,
returning the text before it and the text after it (fence excluded). -/
def splitAtFence : List Char → Option (List Char × List Char)
  | [] => none
  | c :: cs =>
    if startsWithList (c :: cs) ['`', '`', '`'] then some ([], (c :: cs).drop 3)
    else
      match splitAtFence cs with
      | some (a, b) => some (c :: a, b)
      | none => none

/-- The code-fence cleanup in `sql_generation_node`: when the raw response
contains a fence pair, keep the trimmed text between the first fence (with an
optional `sql` tag) and the next fence; otherwise keep the text unchanged.
This reproduces the leftmost-lazy match of the source regex, which succeeds
exactly when two fences are present. -/
def stripFenceRegex (s : String) : String :=
  if occursIn ['`', '`', '`'] s.toList then
    match splitAtFence s.toList with
    | some (_, rest) =>
      let rest := if startsWithList rest ['s', 'q', 'l'] then rest.drop 3 else rest
      match splitAtFence rest with
      | some (inner, _) => String.mk (trimChars inner)
      | none => s
    | none => s
  else s

/-! ### Relevance-score extraction

The source extracts the first match of the regex `0?\.\d+|1\.0|0|1` from the
rating response and converts it with `float`, defaulting to 0.5 when there is
no match or the call failed. -/

/-- Greedy run of decimal digits. -/
def takeDigits : List Char → List Char × List Char
  | [] => ([], [])
  | c :: cs =>
    if c.isDigit then
      let (d, r) := takeDigits cs
      (c :: d, r)
    else ([], c :: cs)

/-- Match `\.\d+` at the head of the list. -/
def matchFracAfterDot : List Char → Option (List Char)
  | '.' :: rest =>
    let (ds, _) := takeDigits rest
    if ds.isEmpty then none else some ('.' :: ds)
  | _ => none

/-- Match the regex alternative `0?\.\d+` at the head of the list. -/
def matchAltA (l : List Char) : Option (List Char) :=
  match l with
  | '0' :: rest => (matchFracAfterDot rest).map (fun m => '0' :: m)
  | _ => matchFracAfterDot l

/-- Match one alternative of `0?\.\d+|1\.0|0|1` at the head of the list, in the
source regex's left-to-right alternation order. -/
def matchScoreAt (l : List Char) : Option (List Char) :=
  match matchAltA l with
  | some m => some m
  | none =>
    if startsWithList l ['1', '.', '0'] then some ['1', '.', '0']
    else
      match l with
      | '0' :: _ => some ['0']
      | '1' :: _ => some ['1']
      | _ => none

/-- Leftmost match of the score regex (Python `re.search`). -/
def firstScoreTok : List Char → Option (List Char)
  | [] => none
  | c :: cs =>
    match matchScoreAt (c :: cs) with
    | some m => some m
    | none => firstScoreTok cs

/-- Numeric value of a digit run. -/
def digitsVal (ds : List Char) : Nat :=
  ds.foldl (fun a c => a * 10 + (c.toNat - '0'.toNat)) 0

/-- Exact value of a matched score token (`float(...)` on the matched text;
the token shapes are `0.d+`, `.d+`, `1.0`, `0` and `1`). -/
def tokToRat : List Char → ℚ
  | '0' :: '.' :: ds => mkRat (digitsVal ds) (10 ^ ds.length)
  | '.' :: ds => mkRat (digitsVal ds) (10 ^ ds.length)
  | '1' :: '.' :: _ => 1
  | t => (digitsVal t : ℚ)

/-- The relevance score the planner derives from the adequacy call: the first
regex match converted to a number, 0.5 when nothing matches, and 0.5 when the
call raised (the bare `except` in `planner_node`). -/
def relevanceOf : Except LLMErr String → ℚ
  | .error _ => mkRat 1 2
  | .ok r =>
    match firstScoreTok r.toList with
    | some t => tokToRat t
    | none => mkRat 1 2

/-! ### sql_agent.py — the request state (`AgentState`) -/

/-- A parsed evaluation judgment (the JSON object the evaluation agent is
instructed to return). -/
structure EvalResult where
  passed : Bool
  accuracy_score : ℚ
  optimization_score : ℚ
  feedback : String
  suggestions : List String
  deriving Repr, DecidableEq

/-- The `AgentState` record.  Here `evaluation_result` is `none` for the initial empty dict. -/
structure AgentState where
  user_query : String
  selected_tool_order : List Nat
  current_tool_index : Nat
  tools_attempted : List Nat
  selected_tables : Option (List String)
  selected_category : Option String
  tables_satisfactory : Bool
  planner_reasoning : String
  generated_sql : Option String
  sql_generation_attempts : Nat
  sql_generation_error : Option String
  sql_valid : Bool
  sql_history : List String
  evaluation_result : Option EvalResult
  optimization_suggestions : List String
  accuracy_score : ℚ
  needs_regeneration : Bool
  final_sql : Option String
  error_message : Option String
  workflow_complete : Bool
  deriving Repr, DecidableEq

/-! ### Oracles for the model calls made by the nodes -/

/-- Outcomes of the three calls a single `planner_node` entry may make:
the tool-augmented ordering call (as the list of invoked tool names), the
yes/no out-of-scope classification, and the adequacy-rating call. -/
structure PlannerOracle where
  ordering : Except LLMErr (List String)
  scope : Except LLMErr String
  score : Except LLMErr String
  deriving Repr

/-- Outcome of one `evaluation_node` entry: the judgment call either raised
(`callErr`), or returned text whose JSON extraction failed (`malformed`,
the `json.JSONDecodeError` path), or parsed to an object missing a required
key (`badShape`, caught by the generic handler), or parsed fully. -/
inductive EvalOutcome where
  | parsed (r : EvalResult)
  | malformed
  | badShape (msg : String)
  | callErr (e : LLMErr)
  deriving Repr, DecidableEq

/-- The oracle consumed by one graph superstep (only the component matching
the node being executed is read). -/
structure StepOracle where
  planner : PlannerOracle
  gen : Except LLMErr String
  eval : EvalOutcome
  deriving Repr

/-! ### Node implementations -/

/-- The scope-violation message of `planner_node`. -/
def scopeViolationMsg (q : String) : String :=
  "❌ The query about \x27" ++ q ++
    "\x27 is outside our Retail database scope. We handle Customers, Products, and Sales data."

/-- The dead-branch exhaustion message inside `planner_node` (lines 529-535). -/
def noSatisfactoryMsg : String :=
  "❌ I couldn\x27t find any satisfactory tables to answer your query. Please try rephrasing or ask about products, orders, or customers."

/-- The first half of `planner_node` (lines 431-522): on first entry, decide
`selected_tool_order` from the ordering call; an empty tool-call list triggers
the out-of-scope classification, whose negative answer terminates the run
(`inl`); any exception in this block falls back to the default order
`[0, 1, 2]`.  `inr` carries the state into the adequacy half. -/
def planner_order_phase (o : PlannerOracle) (s : AgentState) : AgentState ⊕ AgentState :=
  if s.selected_tool_order.isEmpty then
    match o.ordering with
    | .error _ =>
      .inr { s with selected_tool_order := [0, 1, 2], current_tool_index := 0, tools_attempted := [] }
    | .ok names =>
      let tool_order := dedupOrder names
      if tool_order.isEmpty then
        match o.scope with
        | .error _ =>
          .inr { s with selected_tool_order := [0, 1, 2], current_tool_index := 0, tools_attempted := [] }
        | .ok ans =>
          if containsNO ans then
            .inl { s with
              error_message := some (scopeViolationMsg s.user_query),
              planner_reasoning := "Out-of-scope query filtered.",
              workflow_complete := true }
          else
            .inr { s with selected_tool_order := [0, 1, 2], current_tool_index := 0, tools_attempted := [] }
      else
        .inr { s with
          selected_tool_order := tool_order ++ (List.range 3).filter (fun i => decide (i ∉ tool_order)),
          current_tool_index := 0, tools_attempted := [] }
  else .inr s

/-- The second half of `planner_node` (lines 524-572): examine the category at
the cursor, rate its adequacy, and either keep the cursor (adequate) or record
the attempt and advance it. -/
def planner_examine_phase (o : PlannerOracle) (s : AgentState) : AgentState :=
  if s.selected_tool_order.length ≤ s.current_tool_index then
    { s with
      error_message := some noSatisfactoryMsg,
      planner_reasoning := "All available table categories were checked but none were relevant.",
      workflow_complete := true }
  else
    let tool_idx := s.selected_tool_order.getD s.current_tool_index 0
    let category_info := CATEGORY_MAP.getD tool_idx ⟨"", []⟩
    let relevance_score := relevanceOf o.score
    let is_satisfactory : Bool := decide (mkRat 4 5 ≤ relevance_score)
    { s with
      selected_tables := some category_info.tables,
      selected_category := some category_info.name,
      tables_satisfactory := is_satisfactory,
      planner_reasoning := "Analyzed " ++ category_info.name,
      tools_attempted := s.tools_attempted ++ [tool_idx],
      current_tool_index := s.current_tool_index + (if is_satisfactory then 0 else 1) }

/-- Translation of `planner_node` (sql_agent.py lines 420-572). -/
def planner_node (o : PlannerOracle) (s : AgentState) : AgentState :=
  match planner_order_phase o s with
  | .inl t => t
  | .inr s2 => planner_examine_phase o s2

/-- Translation of `sql_generation_node` (sql_agent.py lines 575-690).  On a successful call,
the response is trimmed, fence-stripped, validated and appended to
`sql_history`; on an exception, only the error/validity/attempt fields are
touched. -/
def sql_generation_node (o : Except LLMErr String) (s : AgentState) : AgentState :=
  let attempt_num := s.sql_generation_attempts + 1
  match o with
  | .ok raw =>
    let sql_query := stripFenceRegex (pyStrip raw)
    let is_valid := validate_sql_syntax sql_query
    let s := { s with
      generated_sql := some sql_query,
      sql_valid := is_valid,
      sql_generation_attempts := attempt_num,
      sql_history := s.sql_history ++ [sql_query] }
    if is_valid then { s with sql_generation_error := none, needs_regeneration := false }
    else { s with sql_generation_error := some "SQL syntax validation failed" }
  | .error e =>
    { s with
      sql_generation_error := some ("SQL generation error: " ++ errStr e),
      sql_valid := false,
      sql_generation_attempts := attempt_num }

/-- The auto-approval fallback shared by the two exception handlers of
`evaluation_node`. -/
def autoApprove (feedback : String) (s : AgentState) : AgentState :=
  { s with
    evaluation_result := some
      { passed := true, accuracy_score := mkRat 9 10, optimization_score := mkRat 4 5,
        feedback := feedback, suggestions := [] },
    final_sql := s.generated_sql,
    workflow_complete := true }

/-- Translation of `evaluation_node` (sql_agent.py lines 693-812). -/
def evaluation_node (o : EvalOutcome) (s : AgentState) : AgentState :=
  match o with
  | .parsed r =>
    let s := { s with
      evaluation_result := some r,
      accuracy_score := r.accuracy_score,
      optimization_suggestions := r.suggestions,
      needs_regeneration := !r.passed }
    if r.passed then { s with final_sql := s.generated_sql, workflow_complete := true }
    else s
  | .malformed => autoApprove "Auto-approved due to evaluation parsing error" s
  | .badShape m => autoApprove ("Auto-approved due to error: " ++ m) s
  | .callErr e => autoApprove ("Auto-approved due to error: " ++ errStr e) s

/-- The generic apology message of `error_node`. -/
def genericApologyMsg : String :=
  "I apologize, but I couldn\x27t find any relevant tables or generate a valid query for that specific request."

/-- Translation of `error_node` (sql_agent.py lines 815-824). -/
def error_node (s : AgentState) : AgentState :=
  let s :=
    if s.error_message = none ∨ s.error_message = some "" then
      if pyTruthy s.sql_generation_error then
        { s with error_message := some ("SQL Generation failed: " ++ s.sql_generation_error.getD "") }
      else
        { s with error_message := some genericApologyMsg }
    else s
  { s with workflow_complete := true }

/-! ### Conditional edges -/

inductive PlannerRoute where
  | sql_generation
  | planner
  | error
  deriving Repr, DecidableEq

/-- Translation of `should_continue_planner` (lines 831-843). -/
def should_continue_planner (s : AgentState) : PlannerRoute :=
  if s.workflow_complete then .error
  else if s.tables_satisfactory then .sql_generation
  else if s.current_tool_index < s.selected_tool_order.length then .planner
  else .error

inductive GenRoute where
  | evaluation
  | sql_generation
  | error
  deriving Repr, DecidableEq

/-- Translation of `should_retry_sql` (lines 846-855). -/
def should_retry_sql (s : AgentState) : GenRoute :=
  if s.sql_valid then .evaluation
  else if s.sql_generation_attempts < 2 then .sql_generation
  else .error

inductive EvalRoute where
  | sql_generation
  | stop
  deriving Repr, DecidableEq

/-- The quality-concern warning head attached on forced acceptance. -/
def qcWarn : String := "SQL generated but with quality concerns: "

/-- Translation of `should_regenerate_sql` (lines 858-873).  The source mutates the state
dict inside this conditional edge (forced acceptance at the regeneration cap);
the mutation is returned alongside the route. -/
def should_regenerate_sql (s : AgentState) : AgentState × EvalRoute :=
  if s.workflow_complete then (s, .stop)
  else if s.needs_regeneration then
    if 4 ≤ s.sql_generation_attempts then
      ({ s with
        final_sql := s.generated_sql,
        error_message := some (qcWarn ++ ((s.evaluation_result.map (fun r => r.feedback)).getD "")),
        workflow_complete := true }, .stop)
    else (s, .sql_generation)
  else (s, .stop)

/-! ### Graph wiring (`create_nlp_to_sql_graph`) and the run loop -/

inductive GraphNode where
  | planner
  | sql_generation
  | evaluation
  | error
  deriving Repr, DecidableEq

/-- One superstep of the compiled graph: run the node, then its conditional
edge; `none` means END. -/
def stepGraph (o : StepOracle) (n : GraphNode) (s : AgentState) :
    AgentState × Option GraphNode :=
  match n with
  | .planner =>
    let s2 := planner_node o.planner s
    (s2, some (match should_continue_planner s2 with
      | .sql_generation => .sql_generation
      | .planner => .planner
      | .error => .error))
  | .sql_generation =>
    let s2 := sql_generation_node o.gen s
    (s2, some (match should_retry_sql s2 with
      | .evaluation => .evaluation
      | .sql_generation => .sql_generation
      | .error => .error))
  | .evaluation =>
    let s2 := evaluation_node o.eval s
    let p := should_regenerate_sql s2
    (p.1, match p.2 with
      | .sql_generation => some .sql_generation
      | .stop => none)
  | .error => (error_node s, none)

/-- Execute the graph from node `n`, consuming one oracle per superstep;
`none` when the supplied oracle list is shorter than the run. -/
def runFrom : List StepOracle → GraphNode → AgentState → Option AgentState
  | [], _, _ => none
  | o :: os, n, s =>
    match stepGraph o n s with
    | (s2, none) => some s2
    | (s2, some n2) => runFrom os n2 s2

/-- The initial state built by `run_nlp_to_sql` (lines 962-985). -/
def initial_state (q : String) : AgentState :=
  { user_query := q
    selected_tool_order := []
    current_tool_index := 0
    tools_attempted := []
    selected_tables := none
    selected_category := none
    tables_satisfactory := false
    planner_reasoning := ""
    generated_sql := none
    sql_generation_attempts := 0
    sql_generation_error := none
    sql_valid := false
    sql_history := []
    evaluation_result := none
    optimization_suggestions := []
    accuracy_score := 0
    needs_regeneration := false
    final_sql := none
    error_message := none
    workflow_complete := false }

/-- The dictionary `run_nlp_to_sql` returns to the HTTP boundary.  `error` is
`none` exactly when the key is absent (the success branch builds no `error`
entry). -/
structure RunOutput where
  success : Bool
  sql : Option String
  error : Option String
  category : Option String
  tool_order : List String
  evaluation : Option EvalResult
  planner_reasoning : String
  attempts : Nat
  sql_history : List String
  deriving Repr, DecidableEq

/-- The default failure text `run_nlp_to_sql` substitutes for a falsy
`error_message`. -/
def defaultErrMsg : String :=
  "I was unable to find relevant information or generate a valid query for your request."

/-- The reported category-name list: the names of the order entries that are valid identifiers. -/
def toolOrderNames (order : List Nat) : List String :=
  (order.filter (fun i => i < CATEGORY_MAP.length)).map
    (fun i => (CATEGORY_MAP.getD i ⟨"", []⟩).name)

/-- Result formatting of `run_nlp_to_sql` (lines 990-1031): the success branch
is taken iff `final_sql` is truthy, and only the failure branch carries an
`error` entry. -/
def formatOutput (result : AgentState) : RunOutput :=
  if pyTruthy result.final_sql then
    { success := true
      sql := result.final_sql
      error := none
      category := result.selected_category
      tool_order := toolOrderNames result.selected_tool_order
      evaluation := result.evaluation_result
      planner_reasoning := result.planner_reasoning
      attempts := result.sql_generation_attempts
      sql_history := result.sql_history }
  else
    { success := false
      sql := none
      error := some (match result.error_message with
        | some m => if m = "" then defaultErrMsg else m
        | none => defaultErrMsg)
      category := result.selected_category
      tool_order := toolOrderNames result.selected_tool_order
      evaluation := result.evaluation_result
      planner_reasoning := result.planner_reasoning
      attempts := result.sql_generation_attempts
      sql_history := result.sql_history }

/-- Translation of `run_nlp_to_sql`: run the graph from the planner on a fresh state and
format the terminal state. -/
def run_nlp_to_sql (os : List StepOracle) (q : String) : Option RunOutput :=
  (runFrom os .planner (initial_state q)).map formatOutput

/-! ### Concrete runs used as witnesses and counterexamples -/

/-- A passing evaluation judgment. -/
def okEval : EvalResult :=
  { passed := true, accuracy_score := mkRat 19 20, optimization_score := mkRat 17 20,
    feedback := "Looks good", suggestions := [] }

/-- A failing evaluation judgment. -/
def failEval : EvalResult :=
  { passed := false, accuracy_score := mkRat 1 2, optimization_score := mkRat 1 2,
    feedback := "needs work", suggestions := [] }

/-- A planner oracle whose ordering call invokes the Customer & Sales tool and
whose adequacy call rates 0.9. -/
def oPlannerOK : PlannerOracle :=
  { ordering := .ok ["get_customer_sales_tables"], scope := .ok "YES", score := .ok "0.9" }

/-- A superstep oracle for a fully successful pipeline pass. -/
def oIdle : StepOracle :=
  { planner := oPlannerOK, gen := .ok "SELECT customer_id FROM customers", eval := .parsed okEval }

/-- A run in which the evaluation verdict fails on every pass: planner, then
four generation/evaluation rounds, reaching the regeneration cap. -/
def forcedScript : List StepOracle :=
  [oIdle, oIdle, { oIdle with eval := .parsed failEval },
   oIdle, { oIdle with eval := .parsed failEval },
   oIdle, { oIdle with eval := .parsed failEval },
   oIdle, { oIdle with eval := .parsed failEval }]

/-- The terminal state of `forcedScript` (used to instantiate run-level
theorems at a concrete input). -/
def forcedFinal : AgentState :=
  (runFrom forcedScript GraphNode.planner (initial_state "list top customers")).getD
    (initial_state "")

/-- A run whose evaluation call raises the provider-exhausted error. -/
def provScript : List StepOracle :=
  [oIdle, oIdle, { oIdle with eval := .callErr .bothUnavailable }]

/-! ### Invariants for the run-level terminal-state theorem -/

/-- Facts that hold whenever control is about to enter the given node.
The first three nodes are only ever entered with no terminal field set; the
error node is only entered with `final_sql` unset and a non-empty (or absent)
error message; evaluation is only entered with a generated candidate. -/
def Jinv : GraphNode → AgentState → Prop
  | .planner, s => s.final_sql = none ∧ s.error_message = none ∧ s.workflow_complete = false
  | .sql_generation, s => s.final_sql = none ∧ s.error_message = none ∧ s.workflow_complete = false
  | .evaluation, s => s.final_sql = none ∧ s.error_message = none ∧ s.workflow_complete = false
      ∧ s.generated_sql.isSome = true
  | .error, s => s.final_sql = none ∧ s.error_message ≠ some ""

/-- The terminal-state shape: when complete, at least one terminal field is
set, and both are set only with the forced-acceptance quality warning. -/
def GoodTerminal (s : AgentState) : Prop :=
  s.workflow_complete = true →
    (s.final_sql.isSome = true ∨ s.error_message.isSome = true)
    ∧ (s.final_sql.isSome = true → s.error_message.isSome = true →
        ∃ fb, s.error_message = some (qcWarn ++ fb))

/-! ### Helper lemmas -/

theorem data_ne_nil_of_ne_empty (s : String) (h : s ≠ "") : ¬ s.data = [] := by
  rcases s with ⟨l⟩
  intro hl
  have hl2 : l = [] := hl
  subst hl2
  exact h rfl

theorem scopeMsg_ne_empty (q : String) : scopeViolationMsg q ≠ "" := by
  intro hx
  have h2 := congrArg String.data hx
  simp [scopeViolationMsg, String.data_append] at h2

theorem noSatisfactoryMsg_ne_empty : noSatisfactoryMsg ≠ "" := by decide

theorem genericApologyMsg_ne_empty : genericApologyMsg ≠ "" := by decide

/-- The ordering half of the planner either terminates the run with the
scope-violation message or hands an otherwise terminal-field-preserving state
to the adequacy half. -/
theorem order_phase_spec (o : PlannerOracle) (s : AgentState) :
    (∃ t, planner_order_phase o s = Sum.inl t ∧ t.final_sql = s.final_sql
      ∧ t.error_message = some (scopeViolationMsg s.user_query) ∧ t.workflow_complete = true
      ∧ t.selected_tool_order = s.selected_tool_order ∧ t.selected_tables = s.selected_tables
      ∧ t.tools_attempted = s.tools_attempted)
    ∨ (∃ s2, planner_order_phase o s = Sum.inr s2 ∧ s2.final_sql = s.final_sql
      ∧ s2.error_message = s.error_message ∧ s2.workflow_complete = s.workflow_complete
      ∧ s2.generated_sql = s.generated_sql ∧ s2.user_query = s.user_query) := by
  unfold planner_order_phase
  split
  · cases ho : o.ordering with
    | error e => exact Or.inr ⟨_, rfl, rfl, rfl, rfl, rfl, rfl⟩
    | ok names =>
      dsimp only
      split
      · cases hs : o.scope with
        | error e => exact Or.inr ⟨_, rfl, rfl, rfl, rfl, rfl, rfl⟩
        | ok ans =>
          dsimp only
          split
          · exact Or.inl ⟨_, rfl, rfl, rfl, rfl, rfl, rfl, rfl⟩
          · exact Or.inr ⟨_, rfl, rfl, rfl, rfl, rfl, rfl⟩
      · exact Or.inr ⟨_, rfl, rfl, rfl, rfl, rfl, rfl⟩
  · exact Or.inr ⟨_, rfl, rfl, rfl, rfl, rfl, rfl⟩

/-- The adequacy half preserves the terminal fields except on the (in-graph
unreachable) exhaustion branch, where it reports `noSatisfactoryMsg`. -/
theorem examine_spec (o : PlannerOracle) (s : AgentState) :
    (planner_examine_phase o s).final_sql = s.final_sql
    ∧ (planner_examine_phase o s).generated_sql = s.generated_sql
    ∧ ((planner_examine_phase o s).error_message = s.error_message
        ∧ (planner_examine_phase o s).workflow_complete = s.workflow_complete
      ∨ (planner_examine_phase o s).error_message = some noSatisfactoryMsg
        ∧ (planner_examine_phase o s).workflow_complete = true) := by
  unfold planner_examine_phase
  split
  · exact ⟨rfl, rfl, Or.inr ⟨rfl, rfl⟩⟩
  · exact ⟨rfl, rfl, Or.inl ⟨rfl, rfl⟩⟩

/-- The examine phase never changes the decided category order. -/
theorem examine_tool_order (o : PlannerOracle) (s : AgentState) :
    (planner_examine_phase o s).selected_tool_order = s.selected_tool_order := by
  unfold planner_examine_phase
  split <;> rfl

/-- The generation node never touches the terminal fields. -/
theorem gen_spec (o : Except LLMErr String) (s : AgentState) :
    (sql_generation_node o s).final_sql = s.final_sql
    ∧ (sql_generation_node o s).error_message = s.error_message
    ∧ (sql_generation_node o s).workflow_complete = s.workflow_complete := by
  cases o with
  | ok raw =>
    unfold sql_generation_node
    dsimp only
    split <;> exact ⟨rfl, rfl, rfl⟩
  | error e => exact ⟨rfl, rfl, rfl⟩

/-- A valid post-generation state has a generated candidate. -/
theorem gen_valid_some (o : Except LLMErr String) (s : AgentState)
    (h : (sql_generation_node o s).sql_valid = true) :
    (sql_generation_node o s).generated_sql.isSome = true := by
  cases o with
  | ok raw =>
    unfold sql_generation_node
    dsimp only
    split <;> rfl
  | error e =>
    exact absurd h (by simp [sql_generation_node])

/-- The evaluation node never touches `error_message` or `generated_sql`, and
either completes the run with the candidate as `final_sql` or leaves the
terminal fields alone while demanding regeneration. -/
theorem eval_spec (o : EvalOutcome) (s : AgentState) :
    (evaluation_node o s).error_message = s.error_message
    ∧ (evaluation_node o s).generated_sql = s.generated_sql
    ∧ (evaluation_node o s).sql_generation_attempts = s.sql_generation_attempts
    ∧ ((evaluation_node o s).workflow_complete = true
        ∧ (evaluation_node o s).final_sql = s.generated_sql
      ∨ (evaluation_node o s).workflow_complete = s.workflow_complete
        ∧ (evaluation_node o s).final_sql = s.final_sql
        ∧ (evaluation_node o s).needs_regeneration = true) := by
  cases o with
  | parsed r =>
    unfold evaluation_node
    dsimp only
    split
    · exact ⟨rfl, rfl, rfl, Or.inl ⟨rfl, rfl⟩⟩
    · next hp =>
      refine ⟨rfl, rfl, rfl, Or.inr ⟨rfl, rfl, ?_⟩⟩
      simp only [Bool.not_eq_true] at hp
      simp [hp]
  | malformed => exact ⟨rfl, rfl, rfl, Or.inl ⟨rfl, rfl⟩⟩
  | badShape m => exact ⟨rfl, rfl, rfl, Or.inl ⟨rfl, rfl⟩⟩
  | callErr e => exact ⟨rfl, rfl, rfl, Or.inl ⟨rfl, rfl⟩⟩

/-- The error node completes the run with an error message set and leaves
`final_sql` alone. -/
theorem error_node_spec (s : AgentState) (h1 : s.final_sql = none)
    (h2 : s.error_message ≠ some "") :
    (error_node s).workflow_complete = true
    ∧ (error_node s).final_sql = none
    ∧ (error_node s).error_message.isSome = true := by
  unfold error_node
  dsimp only
  split
  · next hcond =>
    rcases hcond with hnone | hempty
    · split <;> exact ⟨rfl, h1 ▸ rfl, rfl⟩
    · exact absurd hempty h2
  · next hcond =>
    push_neg at hcond
    refine ⟨rfl, h1 ▸ rfl, ?_⟩
    rcases he : s.error_message with _ | m
    · exact absurd he hcond.1
    · rfl

/-- Routing to evaluation requires a syntactically valid candidate. -/
theorem retry_eval_valid (s : AgentState)
    (h : should_retry_sql s = GenRoute.evaluation) : s.sql_valid = true := by
  unfold should_retry_sql at h
  split at h
  · assumption
  · split at h <;> simp_all

/-- A completed state always routes the planner edge to the error node. -/
theorem continue_planner_complete (s : AgentState) (h : s.workflow_complete = true) :
    should_continue_planner s = PlannerRoute.error := by
  unfold should_continue_planner
  simp [h]

/-- Known tool names map to category indices below 3. -/
theorem toolNameToIndex_lt (n : String) (i : Nat) (h : toolNameToIndex n = some i) :
    i < 3 := by
  unfold toolNameToIndex at h
  split_ifs at h <;> simp_all <;> omega

/-- The extraction fold keeps the accumulated order duplicate-free and within
the category identifiers. -/
theorem dedup_foldl_invariant (names : List String) :
    ∀ acc : List Nat, acc.Nodup → (∀ x ∈ acc, x < 3) →
      (names.foldl dedupStep acc).Nodup ∧ ∀ x ∈ names.foldl dedupStep acc, x < 3 := by
  induction names with
  | nil => intro acc h1 h2; exact ⟨h1, h2⟩
  | cons n ns ih =>
    intro acc h1 h2
    rw [List.foldl_cons]
    apply ih
    · unfold dedupStep
      rcases ht : toolNameToIndex n with _ | i
      · exact h1
      · dsimp only
        split
        · exact h1
        · next hmem =>
          exact h1.append (List.nodup_singleton i)
            (by simpa [List.disjoint_singleton] using hmem)
    · unfold dedupStep
      rcases ht : toolNameToIndex n with _ | i
      · exact h2
      · dsimp only
        split
        · exact h2
        · intro x hx
          rcases List.mem_append.1 hx with hx | hx
          · exact h2 x hx
          · simp only [List.mem_singleton] at hx
            exact hx ▸ toolNameToIndex_lt n i ht

theorem dedupOrder_nodup (names : List String) : (dedupOrder names).Nodup :=
  (dedup_foldl_invariant names [] (List.nodup_nil) (by simp)).1

theorem dedupOrder_lt (names : List String) : ∀ x ∈ dedupOrder names, x < 3 :=
  (dedup_foldl_invariant names [] (List.nodup_nil) (by simp)).2

/-- Completing a duplicate-free sublist of the identifiers with the missing
ones yields a permutation of all identifiers. -/
theorem completedPerm (d : List Nat) (hn : d.Nodup) (hs : ∀ x ∈ d, x < 3) :
    List.Perm (d ++ (List.range 3).filter (fun i => decide (i ∉ d))) (List.range 3) := by
  have hnodup : (d ++ (List.range 3).filter (fun i => decide (i ∉ d))).Nodup := by
    refine hn.append ((List.nodup_range 3).filter _) ?_
    intro a ha hb
    simp only [List.mem_filter, decide_eq_true_eq] at hb
    exact hb.2 ha
  refine (List.perm_ext_iff_of_nodup hnodup (List.nodup_range 3)).2 ?_
  intro a
  simp only [List.mem_append, List.mem_filter, List.mem_range, decide_eq_true_eq]
  constructor
  · rintro (h | ⟨h, _⟩)
    · exact hs a h
    · exact h
  · intro h
    by_cases hd : a ∈ d
    · exact Or.inl hd
    · exact Or.inr ⟨h, hd⟩

/-- Every run started at any node whose entry facts hold ends, if it ends, in
a terminal state of the documented shape. -/
theorem runFrom_good (os : List StepOracle) : ∀ (n : GraphNode) (s : AgentState), Jinv n s →
    ∀ r, runFrom os n s = some r → GoodTerminal r := by
  induction os with
  | nil =>
    intro n s _ r hr
    simp [runFrom] at hr
  | cons o os ih =>
    intro n s hJ r hr
    cases n with
    | planner =>
      obtain ⟨hf, he, hw⟩ := hJ
      rcases order_phase_spec o.planner s with
        ⟨t, hphase, ht1, ht2, ht3, _, _, _⟩ | ⟨s2, hphase, h1, h2, h3, h4, h5⟩
      · -- out-of-scope early return; routed to the error node
        have hpn : planner_node o.planner s = t := by
          unfold planner_node
          rw [hphase]
        have hstep : stepGraph o .planner s = (t, some .error) := by
          simp [stepGraph, hpn, continue_planner_complete t ht3]
        rw [runFrom, hstep] at hr
        refine ih .error t ⟨ht1.trans hf, ?_⟩ r hr
        rw [ht2]
        intro hx
        exact scopeMsg_ne_empty s.user_query (Option.some.inj hx)
      · -- into the adequacy half
        have hpn : planner_node o.planner s = planner_examine_phase o.planner s2 := by
          unfold planner_node
          rw [hphase]
        obtain ⟨g1, g2, hcase⟩ := examine_spec o.planner s2
        rcases hcase with ⟨q1, q2⟩ | ⟨q1, q2⟩
        · -- terminal fields untouched: recurse on whichever node is routed
          have hJ2 : ∀ m, Jinv m (planner_examine_phase o.planner s2) ∨ m = .evaluation := by
            intro m
            cases m with
            | planner => exact Or.inl ⟨g1.trans (h1.trans hf), q1.trans (h2.trans he), q2.trans (h3.trans hw)⟩
            | sql_generation => exact Or.inl ⟨g1.trans (h1.trans hf), q1.trans (h2.trans he), q2.trans (h3.trans hw)⟩
            | evaluation => exact Or.inr rfl
            | error =>
              refine Or.inl ⟨g1.trans (h1.trans hf), ?_⟩
              rw [q1, h2, he]
              exact fun hx => Option.noConfusion hx
          rw [runFrom] at hr
          rcases hroute : should_continue_planner (planner_examine_phase o.planner s2) with _ | _ | _
          · -- routed to generation
            have hstep : stepGraph o .planner s = (planner_examine_phase o.planner s2, some .sql_generation) := by
              simp [stepGraph, hpn, hroute]
            rw [hstep] at hr
            exact ih _ _ ((hJ2 .sql_generation).resolve_right (by simp)) r hr
          · -- looped back to the planner
            have hstep : stepGraph o .planner s = (planner_examine_phase o.planner s2, some .planner) := by
              simp [stepGraph, hpn, hroute]
            rw [hstep] at hr
            exact ih _ _ ((hJ2 .planner).resolve_right (by simp)) r hr
          · -- routed to the error node
            have hstep : stepGraph o .planner s = (planner_examine_phase o.planner s2, some .error) := by
              simp [stepGraph, hpn, hroute]
            rw [hstep] at hr
            exact ih _ _ ((hJ2 .error).resolve_right (by simp)) r hr
        · -- exhaustion branch inside the planner: complete, routed to error node
          have hroute :
              should_continue_planner (planner_examine_phase o.planner s2) = PlannerRoute.error :=
            continue_planner_complete _ q2
          have hstep : stepGraph o .planner s = (planner_examine_phase o.planner s2, some .error) := by
            simp [stepGraph, hpn, hroute]
          rw [runFrom, hstep] at hr
          refine ih .error _ ⟨g1.trans (h1.trans hf), ?_⟩ r hr
          rw [q1]
          intro hx
          exact noSatisfactoryMsg_ne_empty (Option.some.inj hx)
    | sql_generation =>
      obtain ⟨hf, he, hw⟩ := hJ
      obtain ⟨g1, g2, g3⟩ := gen_spec o.gen s
      rw [runFrom] at hr
      rcases hroute : should_retry_sql (sql_generation_node o.gen s) with _ | _ | _
      · -- valid: routed to evaluation
        have hstep : stepGraph o .sql_generation s = (sql_generation_node o.gen s, some .evaluation) := by
          simp [stepGraph, hroute]
        rw [hstep] at hr
        refine ih .evaluation _ ⟨g1.trans hf, g2.trans he, g3.trans hw, ?_⟩ r hr
        exact gen_valid_some o.gen s (retry_eval_valid _ hroute)
      · -- invalid with budget: retry generation
        have hstep : stepGraph o .sql_generation s = (sql_generation_node o.gen s, some .sql_generation) := by
          simp [stepGraph, hroute]
        rw [hstep] at hr
        exact ih .sql_generation _ ⟨g1.trans hf, g2.trans he, g3.trans hw⟩ r hr
      · -- invalid with budget exhausted: routed to the error node
        have hstep : stepGraph o .sql_generation s = (sql_generation_node o.gen s, some .error) := by
          simp [stepGraph, hroute]
        rw [hstep] at hr
        refine ih .error _ ⟨g1.trans hf, ?_⟩ r hr
        rw [g2, he]
        exact fun hx => Option.noConfusion hx
    | evaluation =>
      obtain ⟨hf, he, hw, hg⟩ := hJ
      obtain ⟨e1, e2, _, hcase⟩ := eval_spec o.eval s
      rw [runFrom] at hr
      rcases hcase with ⟨w2, f2⟩ | ⟨w2, f2, n2⟩
      · -- evaluation completed the run (pass or auto-approval)
        have hreg : should_regenerate_sql (evaluation_node o.eval s) = (evaluation_node o.eval s, .stop) := by
          unfold should_regenerate_sql
          rw [w2]
          simp
        have hstep : stepGraph o .evaluation s = (evaluation_node o.eval s, none) := by
          simp [stepGraph, hreg]
        rw [hstep] at hr
        obtain rfl : evaluation_node o.eval s = r := Option.some.inj hr
        intro _
        constructor
        · exact Or.inl (f2 ▸ hg)
        · intro _ hboth
          rw [e1, he] at hboth
          exact absurd hboth (by simp)
      · -- verdict failed: regenerate or force acceptance at the cap
        have hwc : (evaluation_node o.eval s).workflow_complete = false := w2.trans hw
        by_cases hcap : 4 ≤ (evaluation_node o.eval s).sql_generation_attempts
        · -- forced acceptance: both terminal fields set, with the warning
          have hreg : should_regenerate_sql (evaluation_node o.eval s) =
              ({ evaluation_node o.eval s with
                  final_sql := (evaluation_node o.eval s).generated_sql,
                  error_message := some (qcWarn ++
                    (((evaluation_node o.eval s).evaluation_result.map (fun r => r.feedback)).getD "")),
                  workflow_complete := true }, .stop) := by
            unfold should_regenerate_sql
            rw [if_neg (by simp [hwc]), if_pos n2, if_pos hcap]
          have hstep : stepGraph o .evaluation s =
              ({ evaluation_node o.eval s with
                  final_sql := (evaluation_node o.eval s).generated_sql,
                  error_message := some (qcWarn ++
                    (((evaluation_node o.eval s).evaluation_result.map (fun r => r.feedback)).getD "")),
                  workflow_complete := true }, none) := by
            simp [stepGraph, hreg]
          rw [hstep] at hr
          obtain rfl := Option.some.inj hr
          intro _
          refine ⟨Or.inl ?_, fun _ _ => ⟨_, rfl⟩⟩
          show (evaluation_node o.eval s).generated_sql.isSome = true
          exact e2 ▸ hg
        · -- regeneration budget remains: loop back to generation
          have hreg : should_regenerate_sql (evaluation_node o.eval s) =
              (evaluation_node o.eval s, .sql_generation) := by
            unfold should_regenerate_sql
            rw [if_neg (by simp [hwc]), if_pos n2, if_neg hcap]
          have hstep : stepGraph o .evaluation s = (evaluation_node o.eval s, some .sql_generation) := by
            simp [stepGraph, hreg]
          rw [hstep] at hr
          exact ih .sql_generation _ ⟨f2.trans hf, e1.trans he, w2.trans hw⟩ r hr
    | error =>
      obtain ⟨hf, he⟩ := hJ
      have hstep : stepGraph o .error s = (error_node s, none) := rfl
      rw [runFrom, hstep] at hr
      obtain rfl := Option.some.inj hr
      obtain ⟨w1, f1, m1⟩ := error_node_spec s hf he
      intro _
      refine ⟨Or.inr m1, fun hx _ => ?_⟩
      rw [f1] at hx
      exact absurd hx (by simp)

/-! ### Claims -/

/-- C1 (amended): For every run, when `workflow_complete` becomes true at least
one of `final_sql` / `error_message` is set, and both are set only on the
forced-acceptance path at the regeneration cap, where `error_message` is the
quality-concern warning; on every other completion path exactly one is set. -/
theorem c1_terminal_fields_amended (os : List StepOracle) (q : String) (r : AgentState)
    (h : runFrom os GraphNode.planner (initial_state q) = some r)
    (hc : r.workflow_complete = true) :
    (r.final_sql.isSome = true ∨ r.error_message.isSome = true)
    ∧ (r.final_sql.isSome = true → r.error_message.isSome = true →
        ∃ fb, r.error_message = some (qcWarn ++ fb)) :=
  runFrom_good os GraphNode.planner (initial_state q) ⟨rfl, rfl, rfl⟩ r h hc

/-- Witness for C1's amended theorem at the concrete `forcedScript` run. -/
theorem c1_terminal_fields_witness :
    forcedFinal.final_sql.isSome = true ∨ forcedFinal.error_message.isSome = true :=
  (c1_terminal_fields_amended forcedScript "list top customers" forcedFinal
    (by rfl) (by rfl)).1

/-- C1 counterexample: the `forcedScript` run completes with BOTH `final_sql`
and `error_message` set, refuting "never both". -/
theorem c1_both_set_cex :
    (runFrom forcedScript GraphNode.planner (initial_state "list top customers")).map
        (fun r => (r.workflow_complete, r.final_sql.isSome, r.error_message.isSome))
      = some (true, true, true) := by rfl

/-- C2 (amended): once the generation attempt counter has reached 4 with the
evaluation verdict still failing, regeneration stops, the current candidate is
accepted as final and the run completes with `success = true`; the
quality-concern warning is recorded in the state's `error_message`, but the
success result payload omits it (its `error` key is absent). -/
theorem c2_forced_acceptance_amended (s : AgentState) (sql : String)
    (h1 : s.workflow_complete = false) (h2 : s.needs_regeneration = true)
    (h3 : 4 ≤ s.sql_generation_attempts) (h4 : s.generated_sql = some sql) (h5 : sql ≠ "") :
    (should_regenerate_sql s).2 = EvalRoute.stop
    ∧ (should_regenerate_sql s).1.workflow_complete = true
    ∧ (should_regenerate_sql s).1.final_sql = some sql
    ∧ (should_regenerate_sql s).1.error_message
        = some (qcWarn ++ ((s.evaluation_result.map (fun r => r.feedback)).getD ""))
    ∧ (formatOutput (should_regenerate_sql s).1).success = true
    ∧ (formatOutput (should_regenerate_sql s).1).error = none := by
  have hreg : should_regenerate_sql s =
      ({ s with
          final_sql := s.generated_sql,
          error_message := some (qcWarn ++ ((s.evaluation_result.map (fun r => r.feedback)).getD "")),
          workflow_complete := true }, .stop) := by
    unfold should_regenerate_sql
    rw [if_neg (by simp [h1]), if_pos h2, if_pos h3]
  rw [hreg]
  refine ⟨rfl, rfl, h4 ▸ rfl, rfl, ?_, ?_⟩ <;>
    · unfold formatOutput
      rw [if_pos (by simp [h4, pyTruthy, data_ne_nil_of_ne_empty sql h5])]

/-- Witness state for C2: regeneration cap reached with a failing verdict. -/
def c2WitState : AgentState :=
  { initial_state "q" with
    needs_regeneration := true
    sql_generation_attempts := 4
    generated_sql := some "SELECT customer_id FROM customers"
    evaluation_result := some failEval }

/-- Witness for C2's amended theorem at a concrete capped state. -/
theorem c2_forced_acceptance_witness :
    (should_regenerate_sql c2WitState).1.workflow_complete = true
    ∧ (formatOutput (should_regenerate_sql c2WitState).1).success = true
    ∧ (formatOutput (should_regenerate_sql c2WitState).1).error = none := by
  have h := c2_forced_acceptance_amended c2WitState "SELECT customer_id FROM customers"
    rfl rfl (by decide) rfl (by decide)
  exact ⟨h.2.1, h.2.2.2.2.1, h.2.2.2.2.2⟩

/-- C2 counterexample: in the forced-acceptance run the returned payload has
`success = true` but carries no `error` entry — the quality-concern warning
exists only in the run state's `error_message` and is dropped from the
payload. -/
theorem c2_payload_warning_cex :
    (run_nlp_to_sql forcedScript "list top customers").map (fun o => (o.success, o.error))
      = some (true, none)
    ∧ (runFrom forcedScript GraphNode.planner (initial_state "list top customers")).map
        (fun s => s.error_message)
      = some (some (qcWarn ++ "needs work")) := ⟨by rfl, by rfl⟩

/-- C3 (amended): a `ProviderExhausted` failure raised by a model call is not
always fatal: the orchestrator absorbs it.  In the ordering call it falls back
to the default category order `[0, 1, 2]` and the run continues; in the
adequacy call it defaults the relevance score to 0.5; in the evaluation call
the current candidate is best-effort auto-approved; in the generation call it
is recorded as a failed attempt and retried while the syntax budget allows. -/
theorem c3_provider_exhausted_absorbed :
    (∀ (e : LLMErr) (sp sc : Except LLMErr String) (s : AgentState),
      s.selected_tool_order = [] → s.workflow_complete = false →
        (planner_node ⟨Except.error e, sp, sc⟩ s).selected_tool_order = [0, 1, 2]
        ∧ (planner_node ⟨Except.error e, sp, sc⟩ s).workflow_complete = false)
    ∧ (∀ (e : LLMErr), relevanceOf (Except.error e) = mkRat 1 2)
    ∧ (∀ (e : LLMErr) (s : AgentState),
        (evaluation_node (.callErr e) s).workflow_complete = true
        ∧ (evaluation_node (.callErr e) s).final_sql = s.generated_sql
        ∧ (evaluation_node (.callErr e) s).evaluation_result = some
            { passed := true, accuracy_score := mkRat 9 10, optimization_score := mkRat 4 5,
              feedback := "Auto-approved due to error: " ++ errStr e, suggestions := [] })
    ∧ (∀ (e : LLMErr) (s : AgentState), s.sql_generation_attempts = 0 →
        should_retry_sql (sql_generation_node (Except.error e) s) = GenRoute.sql_generation) := by
  refine ⟨?_, fun e => rfl, fun e s => ⟨rfl, rfl, rfl⟩, ?_⟩
  · intro e sp sc s h0 h1
    have hphase : planner_order_phase ⟨Except.error e, sp, sc⟩ s = Sum.inr
        { s with selected_tool_order := [0, 1, 2], current_tool_index := 0, tools_attempted := [] } := by
      unfold planner_order_phase
      rw [if_pos (by simp [h0])]
    have hpn : planner_node ⟨Except.error e, sp, sc⟩ s =
        planner_examine_phase ⟨Except.error e, sp, sc⟩
          { s with selected_tool_order := [0, 1, 2], current_tool_index := 0, tools_attempted := [] } := by
      unfold planner_node
      rw [hphase]
    rw [hpn]
    unfold planner_examine_phase
    rw [if_neg (by simp)]
    exact ⟨rfl, h1 ▸ rfl⟩
  · intro e s h
    unfold should_retry_sql sql_generation_node
    simp [h]

/-- Witness for C3's amended theorem at concrete inputs: the exhausted-provider
error in the ordering call leaves the run incomplete on the fallback order, and
in the generation call leads to a retry. -/
theorem c3_provider_exhausted_witness :
    (planner_node ⟨Except.error LLMErr.bothUnavailable, Except.ok "YES", Except.ok "0.2"⟩
        (initial_state "top customers")).selected_tool_order = [0, 1, 2]
    ∧ (evaluation_node (.callErr LLMErr.bothUnavailable) (initial_state "q")).workflow_complete = true
    ∧ should_retry_sql
        (sql_generation_node (Except.error LLMErr.bothUnavailable) (initial_state "q"))
      = GenRoute.sql_generation := by
  refine ⟨?_, ?_, ?_⟩
  · exact (c3_provider_exhausted_absorbed.1 LLMErr.bothUnavailable (Except.ok "YES")
      (Except.ok "0.2") (initial_state "top customers") rfl rfl).1
  · exact (c3_provider_exhausted_absorbed.2.2.1 LLMErr.bothUnavailable (initial_state "q")).1
  · exact c3_provider_exhausted_absorbed.2.2.2 LLMErr.bothUnavailable (initial_state "q") rfl

/-- C3 counterexample: a run whose evaluation call raises the
provider-exhausted error nevertheless completes with `success = true` — the
failure was absorbed into a best-effort acceptance, not fatal. -/
theorem c3_fatality_cex :
    (provScript[2]?).map (fun o => o.eval) = some (EvalOutcome.callErr LLMErr.bothUnavailable)
    ∧ (run_nlp_to_sql provScript "top customers").map (fun o => o.success) = some true :=
  ⟨by rfl, by rfl⟩

/-- C4 (amended): for each provider-client operation, an unconfigured primary
is skipped and the secondary is called directly; with neither backend
configured the call fails immediately with the provider-exhausted error and no
backend is attempted; but when both backends fail, the error propagated to the
caller is the secondary backend's own error — a single error carrying only the
secondary cause, not both. -/
theorem c4_failover_amended :
    (∀ (p f : TextOutcome), (generate ⟨false, true⟩ p f).2 = [BackendCall.secondary]
      ∧ ∀ t, f = TextOutcome.ok t → (generate ⟨false, true⟩ p f).1 = Except.ok t)
    ∧ (∀ (p f : TextOutcome), generate ⟨false, false⟩ p f = (Except.error LLMErr.bothUnavailable, []))
    ∧ (∀ c₁ c₂, (generate ⟨true, true⟩ (.fail c₁) (.fail c₂)).1 = Except.error (LLMErr.secondary c₂))
    ∧ (∀ (p f : ToolOutcome), (generate_with_tools ⟨false, true⟩ p f).2 = [BackendCall.secondary]
      ∧ generate_with_tools ⟨false, false⟩ p f = (Except.error LLMErr.bothUnavailable, []))
    ∧ (∀ c₁ c₂, (generate_with_tools ⟨true, true⟩ (.fail c₁) (.fail c₂)).1
        = Except.error (LLMErr.secondary c₂))
    ∧ (∀ (p f : ChatOutcome), (chat ⟨false, true⟩ p f).2 = [BackendCall.secondary]
      ∧ chat ⟨false, false⟩ p f = (Except.error LLMErr.bothUnavailable, []))
    ∧ (∀ c₁ c₂, (chat ⟨true, true⟩ (.fail c₁) (.fail c₂)).1 = Except.error (LLMErr.secondary c₂)) := by
  refine ⟨fun p f => ⟨?_, ?_⟩, fun p f => rfl, fun c₁ c₂ => rfl,
    fun p f => ⟨?_, rfl⟩, fun c₁ c₂ => rfl, fun p f => ⟨?_, rfl⟩, fun c₁ c₂ => rfl⟩
  · cases f <;> rfl
  · rintro t rfl
    rfl
  · cases f <;> rfl
  · cases f <;> rfl

/-- Witness for C4's amended theorem at concrete inputs. -/
theorem c4_failover_witness :
    (generate ⟨false, true⟩ (TextOutcome.fail "unused") (TextOutcome.ok "hello")).1
      = Except.ok "hello"
    ∧ generate ⟨false, false⟩ (TextOutcome.ok "unused") (TextOutcome.ok "unused")
      = (Except.error LLMErr.bothUnavailable, [])
    ∧ (generate ⟨true, true⟩ (TextOutcome.fail "a") (TextOutcome.fail "b")).1
      = Except.error (LLMErr.secondary "b") := by
  refine ⟨?_, ?_, ?_⟩
  · exact (c4_failover_amended.1 (TextOutcome.fail "unused") (TextOutcome.ok "hello")).2 "hello" rfl
  · exact c4_failover_amended.2.1 (TextOutcome.ok "unused") (TextOutcome.ok "unused")
  · exact c4_failover_amended.2.2.1 "a" "b"

/-- C4 counterexample: with both backends configured and both failing, the
propagated error is the secondary's own error; two runs that differ only in
the primary's cause produce the identical error, so the error cannot carry
both underlying causes, and it is not the provider-exhausted error. -/
theorem c4_both_causes_cex :
    (generate ⟨true, true⟩ (TextOutcome.fail "primary timeout") (TextOutcome.fail "fallback refused")).1
      = Except.error (LLMErr.secondary "fallback refused")
    ∧ (generate ⟨true, true⟩ (TextOutcome.fail "primary auth failure") (TextOutcome.fail "fallback refused")).1
      = (generate ⟨true, true⟩ (TextOutcome.fail "primary timeout") (TextOutcome.fail "fallback refused")).1
    ∧ (Except.error (LLMErr.secondary "fallback refused") : Except LLMErr String)
      ≠ Except.error LLMErr.bothUnavailable := by
  refine ⟨rfl, rfl, ?_⟩
  intro h
  simp at h

/-- C5: whenever the planner decides a category order (i.e. the run is not
terminated as out-of-scope, in which case the order stays empty), the decided
`selected_tool_order` is a permutation of all category identifiers, for every
possible sequence of returned tool invocations. -/
theorem c5_category_order_perm (o : PlannerOracle) (s : AgentState)
    (h : s.selected_tool_order = []) :
    ((planner_node o s).selected_tool_order = [] ∧ (planner_node o s).workflow_complete = true)
    ∨ List.Perm (planner_node o s).selected_tool_order [0, 1, 2] := by
  have he : s.selected_tool_order.isEmpty = true := by rw [h]; rfl
  cases ho : o.ordering with
  | error e =>
    have hphase : planner_order_phase o s = Sum.inr
        { s with selected_tool_order := [0, 1, 2], current_tool_index := 0, tools_attempted := [] } := by
      unfold planner_order_phase
      rw [if_pos he, ho]
    have hpn : planner_node o s = planner_examine_phase o
        { s with selected_tool_order := [0, 1, 2], current_tool_index := 0, tools_attempted := [] } := by
      unfold planner_node
      rw [hphase]
    right
    rw [hpn, examine_tool_order]
  | ok names =>
    by_cases hd : dedupOrder names = []
    · cases hs : o.scope with
      | error e2 =>
        have hphase : planner_order_phase o s = Sum.inr
            { s with selected_tool_order := [0, 1, 2], current_tool_index := 0, tools_attempted := [] } := by
          unfold planner_order_phase
          rw [if_pos he, ho]
          dsimp only
          rw [if_pos (by rw [hd]; rfl), hs]
        have hpn : planner_node o s = planner_examine_phase o
            { s with selected_tool_order := [0, 1, 2], current_tool_index := 0, tools_attempted := [] } := by
          unfold planner_node
          rw [hphase]
        right
        rw [hpn, examine_tool_order]
      | ok ans =>
        by_cases hno : containsNO ans
        · have hphase : planner_order_phase o s = Sum.inl
              { s with
                error_message := some (scopeViolationMsg s.user_query),
                planner_reasoning := "Out-of-scope query filtered.",
                workflow_complete := true } := by
            unfold planner_order_phase
            rw [if_pos he, ho]
            dsimp only
            rw [if_pos (by rw [hd]; rfl), hs]
            dsimp only
            rw [if_pos hno]
          have hpn : planner_node o s =
              { s with
                error_message := some (scopeViolationMsg s.user_query),
                planner_reasoning := "Out-of-scope query filtered.",
                workflow_complete := true } := by
            unfold planner_node
            rw [hphase]
          left
          rw [hpn]
          exact ⟨h, rfl⟩
        · have hphase : planner_order_phase o s = Sum.inr
              { s with selected_tool_order := [0, 1, 2], current_tool_index := 0, tools_attempted := [] } := by
            unfold planner_order_phase
            rw [if_pos he, ho]
            dsimp only
            rw [if_pos (by rw [hd]; rfl), hs]
            dsimp only
            rw [if_neg hno]
          have hpn : planner_node o s = planner_examine_phase o
              { s with selected_tool_order := [0, 1, 2], current_tool_index := 0, tools_attempted := [] } := by
            unfold planner_node
            rw [hphase]
          right
          rw [hpn, examine_tool_order]
    · have hdne : (dedupOrder names).isEmpty = false := by
        rcases hdl : dedupOrder names with _ | ⟨a, l⟩
        · exact absurd hdl hd
        · rfl
      have hphase : planner_order_phase o s = Sum.inr
          { s with
            selected_tool_order := dedupOrder names ++
              (List.range 3).filter (fun i => decide (i ∉ dedupOrder names)),
            current_tool_index := 0, tools_attempted := [] } := by
        unfold planner_order_phase
        rw [if_pos he, ho]
        dsimp only
        rw [if_neg (by rw [hdne]; exact Bool.false_ne_true)]
      have hpn : planner_node o s = planner_examine_phase o
          { s with
            selected_tool_order := dedupOrder names ++
              (List.range 3).filter (fun i => decide (i ∉ dedupOrder names)),
            current_tool_index := 0, tools_attempted := [] } := by
        unfold planner_node
        rw [hphase]
      right
      rw [hpn, examine_tool_order]
      have hperm := completedPerm (dedupOrder names) (dedupOrder_nodup names) (dedupOrder_lt names)
      exact hperm.trans (by rw [show List.range 3 = [0, 1, 2] from rfl])

/-- Witness for C5 at a concrete ordering-call result (the inventory tool
first): the decided order `[1, 0, 2]` is a permutation of the identifiers. -/
theorem c5_category_order_perm_witness :
    List.Perm
      (planner_node
        { ordering := Except.ok ["get_inventory_products_tables"],
          scope := Except.ok "YES", score := Except.ok "0.2" }
        (initial_state "q")).selected_tool_order
      [0, 1, 2] := by
  have hx := c5_category_order_perm
    { ordering := Except.ok ["get_inventory_products_tables"],
      scope := Except.ok "YES", score := Except.ok "0.2" }
    (initial_state "q") rfl
  exact hx.resolve_left (by decide)

/-- C6: when the ordering call returns tool invocations that name no category
(in particular, zero invocations), a negative out-of-scope answer terminates
the run immediately in error with the scope-violation message, with no
category examined (`selected_tables` never set, `tools_attempted` empty) and
an empty reported `tool_order`; an affirmative (or any non-negative) answer
falls back to the natural identifier order `[0, 1, 2]`. -/
theorem c6_zero_toolcalls_scope (names : List String) (ans : String)
    (sc g : Except LLMErr String) (ev : EvalOutcome) (o2 : StepOracle)
    (os : List StepOracle) (q : String)
    (hn : dedupOrder names = []) :
    (containsNO ans = true →
      (run_nlp_to_sql ({ planner := ⟨Except.ok names, Except.ok ans, sc⟩, gen := g, eval := ev }
          :: o2 :: os) q).map (fun r => (r.success, r.error, r.tool_order))
        = some (false, some (scopeViolationMsg q), [])
      ∧ (runFrom ({ planner := ⟨Except.ok names, Except.ok ans, sc⟩, gen := g, eval := ev }
          :: o2 :: os) GraphNode.planner (initial_state q)).map
            (fun r => (r.selected_tables, r.tools_attempted))
        = some (none, []))
    ∧ (containsNO ans = false → ∀ s : AgentState, s.selected_tool_order = [] →
        (planner_node ⟨Except.ok names, Except.ok ans, sc⟩ s).selected_tool_order = [0, 1, 2]) := by
  constructor
  · intro hneg
    have hphase : planner_order_phase ⟨Except.ok names, Except.ok ans, sc⟩ (initial_state q)
        = Sum.inl
          { initial_state q with
            error_message := some (scopeViolationMsg q),
            planner_reasoning := "Out-of-scope query filtered.",
            workflow_complete := true } := by
      unfold planner_order_phase
      rw [if_pos (show (initial_state q).selected_tool_order.isEmpty = true from rfl)]
      dsimp only
      rw [if_pos (by rw [hn]; rfl)]
      rw [if_pos hneg]
      rfl
    have hpn : planner_node ⟨Except.ok names, Except.ok ans, sc⟩ (initial_state q)
        = { initial_state q with
            error_message := some (scopeViolationMsg q),
            planner_reasoning := "Out-of-scope query filtered.",
            workflow_complete := true } := by
      unfold planner_node
      rw [hphase]
    have hstep : stepGraph { planner := ⟨Except.ok names, Except.ok ans, sc⟩, gen := g, eval := ev }
        GraphNode.planner (initial_state q)
        = ({ initial_state q with
            error_message := some (scopeViolationMsg q),
            planner_reasoning := "Out-of-scope query filtered.",
            workflow_complete := true }, some GraphNode.error) := by
      unfold stepGraph
      rw [hpn]
      rfl
    have herr : error_node
        { initial_state q with
          error_message := some (scopeViolationMsg q),
          planner_reasoning := "Out-of-scope query filtered.",
          workflow_complete := true }
        = { initial_state q with
            error_message := some (scopeViolationMsg q),
            planner_reasoning := "Out-of-scope query filtered.",
            workflow_complete := true } := by
      unfold error_node
      rw [if_neg (by simp [scopeMsg_ne_empty q])]
    have hrun : runFrom ({ planner := ⟨Except.ok names, Except.ok ans, sc⟩, gen := g, eval := ev }
        :: o2 :: os) GraphNode.planner (initial_state q)
        = some
          { initial_state q with
            error_message := some (scopeViolationMsg q),
            planner_reasoning := "Out-of-scope query filtered.",
            workflow_complete := true } := by
      rw [runFrom, hstep]
      dsimp only
      rw [runFrom]
      dsimp only [stepGraph]
      rw [herr]
    constructor
    · unfold run_nlp_to_sql
      rw [hrun]
      simp [formatOutput, pyTruthy, initial_state, toolOrderNames, scopeMsg_ne_empty q]
    · rw [hrun]
      rfl
  · intro hpos s hs
    have hphase : planner_order_phase ⟨Except.ok names, Except.ok ans, sc⟩ s = Sum.inr
        { s with selected_tool_order := [0, 1, 2], current_tool_index := 0, tools_attempted := [] } := by
      unfold planner_order_phase
      rw [if_pos (by rw [hs]; rfl)]
      dsimp only
      rw [if_pos (by rw [hn]; rfl)]
      rw [if_neg (by rw [hpos]; exact Bool.false_ne_true)]
    have hpn : planner_node ⟨Except.ok names, Except.ok ans, sc⟩ s = planner_examine_phase
        ⟨Except.ok names, Except.ok ans, sc⟩
        { s with selected_tool_order := [0, 1, 2], current_tool_index := 0, tools_attempted := [] } := by
      unfold planner_node
      rw [hphase]
    rw [hpn, examine_tool_order]

/-- Witness for C6 at a concrete run: empty tool-call list, negative answer
(the out-of-scope scenario) and, separately, an affirmative answer. -/
theorem c6_zero_toolcalls_scope_witness :
    (run_nlp_to_sql
        ({ planner := ⟨Except.ok [], Except.ok " No ", Except.ok "0.9"⟩,
           gen := Except.ok "SELECT 1",
           eval := EvalOutcome.malformed } :: oIdle :: [])
        "List all employees hired in 2023").map (fun r => (r.success, r.error, r.tool_order))
      = some (false, some (scopeViolationMsg "List all employees hired in 2023"), [])
    ∧ (planner_node ⟨Except.ok [], Except.ok "Yes", Except.ok "0.9"⟩
        (initial_state "q")).selected_tool_order = [0, 1, 2] := by
  constructor
  · exact ((c6_zero_toolcalls_scope [] " No " (Except.ok "0.9") (Except.ok "SELECT 1")
      EvalOutcome.malformed oIdle [] "List all employees hired in 2023" rfl).1 (by decide)).1
  · exact (c6_zero_toolcalls_scope [] "Yes" (Except.ok "0.9") (Except.ok "SELECT 1")
      EvalOutcome.malformed oIdle [] "q" rfl).2 (by decide) (initial_state "q") rfl

/-- C7: a visited category is adequate iff the relevance score derived from
the rating response is at least 0.8, where the score defaults to 0.5 when the
call failed or no token of the score pattern occurs in the response; on
adequacy the cursor stays put, the category's tables are exposed and control
routes to generation; on inadequacy the category is recorded in
`tools_attempted` and the cursor advances; and with the cursor past the end of
the order and no adequate category, control routes to the error node, which
completes the run in error. -/
theorem c7_adequacy (o : PlannerOracle) (s : AgentState)
    (h0 : s.selected_tool_order ≠ [])
    (hidx : s.current_tool_index < s.selected_tool_order.length)
    (hc : s.workflow_complete = false) :
    ((planner_node o s).tables_satisfactory = true ↔ mkRat 4 5 ≤ relevanceOf o.score)
    ∧ (mkRat 4 5 ≤ relevanceOf o.score →
        (planner_node o s).current_tool_index = s.current_tool_index
        ∧ (planner_node o s).selected_tables = some
            (CATEGORY_MAP.getD (s.selected_tool_order.getD s.current_tool_index 0) ⟨"", []⟩).tables
        ∧ should_continue_planner (planner_node o s) = PlannerRoute.sql_generation)
    ∧ (¬ mkRat 4 5 ≤ relevanceOf o.score →
        (planner_node o s).tools_attempted
            = s.tools_attempted ++ [s.selected_tool_order.getD s.current_tool_index 0]
        ∧ (planner_node o s).current_tool_index = s.current_tool_index + 1)
    ∧ (∀ e, relevanceOf (Except.error e) = mkRat 1 2)
    ∧ (∀ t : String, firstScoreTok t.toList = none → relevanceOf (Except.ok t) = mkRat 1 2)
    ∧ (∀ s2 : AgentState, s2.workflow_complete = false → s2.tables_satisfactory = false →
        s2.selected_tool_order.length ≤ s2.current_tool_index →
          should_continue_planner s2 = PlannerRoute.error)
    ∧ (∀ s3 : AgentState, s3.final_sql = none → s3.error_message = none →
        s3.sql_generation_error = none →
          (error_node s3).workflow_complete = true
          ∧ (error_node s3).error_message = some genericApologyMsg
          ∧ (formatOutput (error_node s3)).success = false) := by
  have hne : s.selected_tool_order.isEmpty = false := by
    rcases hl : s.selected_tool_order with _ | ⟨a, l⟩
    · exact absurd hl h0
    · rfl
  have hphase : planner_order_phase o s = Sum.inr s := by
    unfold planner_order_phase
    rw [if_neg (by rw [hne]; exact Bool.false_ne_true)]
  have hpn : planner_node o s = planner_examine_phase o s := by
    unfold planner_node
    rw [hphase]
  have hex : planner_examine_phase o s =
      { s with
        selected_tables := some
          (CATEGORY_MAP.getD (s.selected_tool_order.getD s.current_tool_index 0) ⟨"", []⟩).tables,
        selected_category := some
          (CATEGORY_MAP.getD (s.selected_tool_order.getD s.current_tool_index 0) ⟨"", []⟩).name,
        tables_satisfactory := decide (mkRat 4 5 ≤ relevanceOf o.score),
        planner_reasoning := "Analyzed " ++
          (CATEGORY_MAP.getD (s.selected_tool_order.getD s.current_tool_index 0) ⟨"", []⟩).name,
        tools_attempted := s.tools_attempted ++ [s.selected_tool_order.getD s.current_tool_index 0],
        current_tool_index := s.current_tool_index +
          (if decide (mkRat 4 5 ≤ relevanceOf o.score) then 0 else 1) } := by
    unfold planner_examine_phase
    rw [if_neg (by omega)]
  refine ⟨?_, ?_, ?_, fun e => rfl, ?_, ?_, ?_⟩
  · rw [hpn, hex]
    simp
  · intro hq
    rw [hpn, hex]
    refine ⟨by simp [hq], rfl, ?_⟩
    unfold should_continue_planner
    rw [if_neg (by simp [hc]), if_pos (by simp [hq])]
  · intro hq
    rw [hpn, hex]
    exact ⟨rfl, by simp [hq]⟩
  · intro t ht
    unfold relevanceOf
    dsimp only
    rw [ht]
  · intro s2 hw ht hlen
    unfold should_continue_planner
    rw [if_neg (by simp [hw]), if_neg (by simp [ht]), if_neg (by omega)]
  · intro s3 hf he hg
    have herr : error_node s3 =
        { s3 with
          error_message := some genericApologyMsg,
          workflow_complete := true } := by
      unfold error_node
      rw [if_pos (Or.inl he), if_neg (by rw [hg]; exact Bool.false_ne_true)]
    rw [herr]
    refine ⟨rfl, rfl, ?_⟩
    unfold formatOutput
    rw [if_neg (by
      rw [show ({ s3 with
        error_message := some genericApologyMsg,
        workflow_complete := true } : AgentState).final_sql = none from hf]
      exact Bool.false_ne_true)]

/-- Witness for C7 at concrete inputs: score 0.9 is adequate on category 0 of
the default order; score 0.2 advances the cursor; a scoreless response
defaults to 0.5. -/
theorem c7_adequacy_witness :
    (planner_node { ordering := Except.ok [], scope := Except.ok "YES", score := Except.ok "0.9" }
        { initial_state "q" with selected_tool_order := [0, 1, 2] }).tables_satisfactory = true
    ∧ (planner_node { ordering := Except.ok [], scope := Except.ok "YES", score := Except.ok "0.2" }
        { initial_state "q" with selected_tool_order := [0, 1, 2] }).current_tool_index = 1
    ∧ relevanceOf (Except.ok "no score here") = mkRat 1 2 := by
  refine ⟨?_, ?_, ?_⟩
  · exact (c7_adequacy
      { ordering := Except.ok [], scope := Except.ok "YES", score := Except.ok "0.9" }
      { initial_state "q" with selected_tool_order := [0, 1, 2] }
      (by decide) (by decide) rfl).1.2 (by decide)
  · exact ((c7_adequacy
      { ordering := Except.ok [], scope := Except.ok "YES", score := Except.ok "0.2" }
      { initial_state "q" with selected_tool_order := [0, 1, 2] }
      (by decide) (by decide) rfl).2.2.1 (by decide)).2
  · exact (c7_adequacy
      { ordering := Except.ok [], scope := Except.ok "YES", score := Except.ok "0.9" }
      { initial_state "q" with selected_tool_order := [0, 1, 2] }
      (by decide) (by decide) rfl).2.2.2.2.1 "no score here" (by decide)

/-- C8: an invalid-syntax candidate increments the attempt counter and loops
back to generation while the counter is below the cap of 2; at the cap the run
routes to the error node, which terminates it reporting the syntax failure,
and the formatted result has `success = false`. -/
theorem c8_syntax_retry :
    (∀ (o : Except LLMErr String) (s : AgentState),
      (sql_generation_node o s).sql_generation_attempts = s.sql_generation_attempts + 1)
    ∧ (∀ s : AgentState, s.sql_valid = false → s.sql_generation_attempts < 2 →
        should_retry_sql s = GenRoute.sql_generation)
    ∧ (∀ s : AgentState, s.sql_valid = false → 2 ≤ s.sql_generation_attempts →
        should_retry_sql s = GenRoute.error)
    ∧ (∀ s : AgentState, s.final_sql = none → s.error_message = none →
        s.sql_generation_error = some "SQL syntax validation failed" →
          (error_node s).workflow_complete = true
          ∧ (error_node s).error_message
              = some ("SQL Generation failed: " ++ "SQL syntax validation failed")
          ∧ (formatOutput (error_node s)).success = false) := by
  refine ⟨?_, ?_, ?_, ?_⟩
  · intro o s
    cases o with
    | ok raw =>
      unfold sql_generation_node
      dsimp only
      split <;> rfl
    | error e => rfl
  · intro s hv hlt
    unfold should_retry_sql
    rw [if_neg (by rw [hv]; exact Bool.false_ne_true), if_pos hlt]
  · intro s hv hge
    unfold should_retry_sql
    rw [if_neg (by rw [hv]; exact Bool.false_ne_true), if_neg (by omega)]
  · intro s hf he hg
    have herr : error_node s =
        { s with
          error_message := some ("SQL Generation failed: " ++ "SQL syntax validation failed"),
          workflow_complete := true } := by
      unfold error_node
      rw [if_pos (Or.inl he), if_pos (by rw [hg]; rfl), hg]
      rfl
    rw [herr]
    refine ⟨rfl, rfl, ?_⟩
    unfold formatOutput
    rw [if_neg (by
      rw [show ({ s with
        error_message := some ("SQL Generation failed: " ++ "SQL syntax validation failed"),
        workflow_complete := true } : AgentState).final_sql = none from hf]
      exact Bool.false_ne_true)]

/-- Witness for C8 at the concrete two-rejection run: two invalid candidates
exhaust the retry budget and the run fails with the syntax-failure report. -/
theorem c8_syntax_retry_witness :
    should_retry_sql (sql_generation_node (Except.ok "DROP TABLE customers;")
        { initial_state "q" with selected_tables := some CATEGORY_1_TABLES })
      = GenRoute.sql_generation
    ∧ should_retry_sql (sql_generation_node (Except.ok "DROP TABLE customers;")
        { initial_state "q" with sql_generation_attempts := 1 })
      = GenRoute.error
    ∧ (formatOutput (error_node (sql_generation_node (Except.ok "DROP TABLE customers;")
        { initial_state "q" with sql_generation_attempts := 1 }))).success = false := by
  refine ⟨?_, ?_, ?_⟩
  · exact c8_syntax_retry.2.1 _ (by decide) (by decide)
  · exact c8_syntax_retry.2.2.1 _ (by decide) (by decide)
  · exact (c8_syntax_retry.2.2.2 _ (by decide) (by decide) (by decide)).2.2

/-- C9: when the evaluation judgment cannot be parsed as JSON, the run does
not fail: the candidate is auto-approved as final, the run completes, the
feedback records the automatic approval, the edge stops the graph, and the
formatted result has `success = true`. -/
theorem c9_eval_parse_failure (s : AgentState) (sql : String)
    (h : s.generated_sql = some sql) (hne : sql ≠ "") :
    (evaluation_node EvalOutcome.malformed s).final_sql = some sql
    ∧ (evaluation_node EvalOutcome.malformed s).workflow_complete = true
    ∧ (evaluation_node EvalOutcome.malformed s).evaluation_result = some
        { passed := true, accuracy_score := mkRat 9 10, optimization_score := mkRat 4 5,
          feedback := "Auto-approved due to evaluation parsing error", suggestions := [] }
    ∧ should_regenerate_sql (evaluation_node EvalOutcome.malformed s)
        = (evaluation_node EvalOutcome.malformed s, EvalRoute.stop)
    ∧ (formatOutput (evaluation_node EvalOutcome.malformed s)).success = true := by
  refine ⟨h ▸ rfl, rfl, rfl, ?_, ?_⟩
  · unfold should_regenerate_sql
    rw [if_pos (show (evaluation_node EvalOutcome.malformed s).workflow_complete = true from rfl)]
  · unfold formatOutput
    rw [if_pos (by
      show pyTruthy (evaluation_node EvalOutcome.malformed s).final_sql = true
      rw [show (evaluation_node EvalOutcome.malformed s).final_sql = s.generated_sql from rfl, h]
      simp [pyTruthy, data_ne_nil_of_ne_empty sql hne])]

/-- Witness for C9 at a concrete state with a generated candidate. -/
theorem c9_eval_parse_failure_witness :
    (evaluation_node EvalOutcome.malformed
        { initial_state "q" with generated_sql := some "SELECT customer_id FROM customers" }).workflow_complete = true
    ∧ (formatOutput (evaluation_node EvalOutcome.malformed
        { initial_state "q" with generated_sql := some "SELECT customer_id FROM customers" })).success = true := by
  have hx := c9_eval_parse_failure
    { initial_state "q" with generated_sql := some "SELECT customer_id FROM customers" }
    "SELECT customer_id FROM customers" rfl (by decide)
  exact ⟨hx.2.1, hx.2.2.2.2⟩

/-- C10: when the generation call itself raises, the attempt counter still
increments and the error field is set with validity false, while `sql_history`
and the previous candidate are left unchanged — the audit trail can therefore
fall behind the attempt count. -/
theorem c10_gen_error_frame (e : LLMErr) (s : AgentState) :
    (sql_generation_node (Except.error e) s).sql_generation_attempts
        = s.sql_generation_attempts + 1
    ∧ (sql_generation_node (Except.error e) s).sql_generation_error
        = some ("SQL generation error: " ++ errStr e)
    ∧ (sql_generation_node (Except.error e) s).sql_valid = false
    ∧ (sql_generation_node (Except.error e) s).sql_history = s.sql_history
    ∧ (sql_generation_node (Except.error e) s).generated_sql = s.generated_sql :=
  ⟨rfl, rfl, rfl, rfl, rfl⟩
